import Mathlib

/-!
Shallow embedding of the `inventory-stock-analyzer` repository (three Python
scripts: `scripts/generate_data.py`, `scripts/create_database.py`,
`scripts/visualize_results.py`) together with theorems settling the frozen
claims about its specification.

Modelling conventions:
* Python's `random.randint lo hi` (inclusive on both ends) is modelled by
  `pyRandint lo hi raw`, where `raw` is the raw draw consumed from the
  pseudo-random stream; for `lo ≤ hi` the result always lies in `[lo, hi]`,
  exactly the contract of `randint`.
* `random.random()` / `random.uniform(a,b)` draws are modelled as rational
  parameters (a value in `[0,1)` resp. the unit draw `u` with
  `uniform a b u = a + (b-a)*u`).
* `random.choice xs` is `pyChoice xs raw = xs[raw % len xs]`.
* The seeded Faker generator (`Faker.seed(42)`) is modelled as an explicit
  stream of the strings it yields (sku digits, words, company names); string
  cosmetics such as `.title()` are folded into the stream values since no
  claim depends on them.
* Dates are day numbers (`Int`), with `now` the day number of
  `datetime.now()`; money and scores are exact rationals.
-/

/-- Python `random.randint lo hi` (inclusive bounds), fed by the raw draw
`raw` from the random stream: `lo + raw % (hi + 1 - lo)`. -/
def pyRandint (lo hi raw : Nat) : Nat := lo + raw % (hi + 1 - lo)

/-- Python `random.choice xs`, fed by the raw draw `raw`. -/
def pyChoice (xs : List String) (raw : Nat) : String := xs.getD (raw % xs.length) ""

/-- Python `random.uniform a b` as `a + (b - a) * u` for a unit draw `u`. -/
def pyUniform (a b u : ℚ) : ℚ := a + (b - a) * u

/-- Python `round(x, prec)` on the exact rational value. -/
def pyRound (prec : Nat) (q : ℚ) : ℚ := (round (q * 10 ^ prec) : ℤ) / 10 ^ prec

/-- SQLite `ROUND(x, 0)`: round to the nearest integer, halves away from zero. -/
def sqlRound0 (q : ℚ) : ℚ :=
  if q < 0 then -((Int.floor (-q + 1/2) : ℤ) : ℚ) else ((Int.floor (q + 1/2) : ℤ) : ℚ)

/-- SQLite `ROUND(x, 2)`. -/
def sqlRound2 (q : ℚ) : ℚ := sqlRound0 (q * 100) / 100

theorem pyRandint_ge (lo hi raw : Nat) : lo ≤ pyRandint lo hi raw :=
  Nat.le_add_right lo _

theorem pyRandint_le (lo hi raw : Nat) (h : lo ≤ hi) : pyRandint lo hi raw ≤ hi := by
  unfold pyRandint
  have hpos : 0 < hi + 1 - lo := by omega
  have := Nat.mod_lt raw hpos
  omega

/-! ## Data model (the five generated tables, `generate_data.py`) -/

/-- A row of `data/products.csv`. -/
structure Product where
  product_id : Nat
  sku : String
  product_name : String
  category : String
  unit_cost : ℚ
  unit_price : ℚ
  reorder_point : Nat
  reorder_quantity : Nat
  safety_stock : Nat
  supplier_id : Nat
  lead_time_days : Nat
deriving DecidableEq, Repr

/-- A row of `data/suppliers.csv`. -/
structure Supplier where
  supplier_id : Nat
  supplier_name : String
  country : String
  reliability_score : ℚ
  avg_lead_time : Nat
deriving DecidableEq, Repr

/-- A row of `data/inventory.csv`. -/
structure InventoryRecord where
  product_id : Nat
  quantity_on_hand : Nat
  warehouse_location : String
  last_counted : Int
  reserved_quantity : Nat
deriving DecidableEq, Repr

/-- A row of `data/sales_transactions.csv`. -/
structure SalesTransaction where
  transaction_id : Nat
  product_id : Nat
  transaction_date : Int
  quantity_sold : Nat
  sale_amount : ℚ
  customer_type : String
deriving DecidableEq, Repr

/-- A row of `data/purchase_orders.csv`. -/
structure PurchaseOrder where
  po_id : Nat
  product_id : Nat
  supplier_id : Nat
  order_date : Int
  expected_delivery_date : Int
  actual_delivery_date : Int
  quantity_ordered : Nat
  unit_cost : ℚ
  status : String
deriving DecidableEq, Repr

/-! ## `generate_data.py` -/

/-- `categories` list of `generate_data.py`. -/
def categories : List String :=
  ["Electronics", "Clothing", "Food", "Home & Garden", "Sports", "Automotive"]

/-- `countries` list of `generate_data.py`. -/
def countries : List String := ["USA", "China", "Germany", "Japan", "Mexico", "Vietnam"]

/-- Warehouse names drawn for `warehouse_location`. -/
def warehouses : List String := ["Warehouse A", "Warehouse B", "Warehouse C"]

/-- Customer types drawn for `customer_type`. -/
def customerTypes : List String := ["Retail", "Wholesale", "Online"]

/-- The strings the seeded Faker yields for one product
(`fake.unique.random_number(digits=6)` and the two `fake.word().title()`). -/
structure FakerDraws where
  sku : String
  w1 : String
  w2 : String
deriving DecidableEq, Repr

/-- The values one product iteration draws from the (never-seeded) Python
`random` module: `random.choice` category index, `randint` raws for
safety stock / reorder point / reorder quantity / supplier / lead time, and
unit draws for the two `random.uniform` calls. -/
structure ProductDraws where
  catRaw : Nat
  ssRaw : Nat
  rpRaw : Nat
  rqRaw : Nat
  supRaw : Nat
  ltRaw : Nat
  costU : ℚ
  priceU : ℚ
deriving DecidableEq, Repr

/-- One iteration of the products loop (`generate_data.py` lines 27-43):
`safety_stock = randint(10, 50)`, `reorder_point = randint(safety_stock + 10, 100)`,
and the remaining fields as in the appended dict. -/
def mkProduct (i : Nat) (f : FakerDraws) (d : ProductDraws) : Product :=
  let safety_stock := pyRandint 10 50 d.ssRaw
  let reorder_point := pyRandint (safety_stock + 10) 100 d.rpRaw
  let category := pyChoice categories d.catRaw
  { product_id := i + 1
    sku := "SKU-" ++ f.sku
    product_name := category ++ " " ++ f.w1 ++ " " ++ f.w2
    category := category
    unit_cost := pyRound 2 (pyUniform 5 200 d.costU)
    unit_price := pyRound 2 (pyUniform 10 400 d.priceU)
    reorder_point := reorder_point
    reorder_quantity := pyRandint 50 200 d.rqRaw
    safety_stock := safety_stock
    supplier_id := pyRandint 1 20 d.supRaw
    lead_time_days := pyRandint 7 30 d.ltRaw }

/-- The products loop: `for i in range(150)` appending one product each time. -/
def genProducts (fk : Nat → FakerDraws) (pd : Nat → ProductDraws) : List Product :=
  (List.range 150).map (fun i => mkProduct i (fk i) (pd i))

/-- The values one supplier iteration draws from the Python `random` module. -/
structure SupDraws where
  countryRaw : Nat
  relU : ℚ
  ltRaw : Nat
deriving DecidableEq, Repr

/-- One iteration of the suppliers loop (`generate_data.py` lines 58-65);
`name` is the seeded Faker's `fake.company()` output. -/
def mkSupplier (i : Nat) (name : String) (d : SupDraws) : Supplier :=
  { supplier_id := i + 1
    supplier_name := name
    country := pyChoice countries d.countryRaw
    reliability_score := pyRound 1 (pyUniform 3 5 d.relU)
    avg_lead_time := pyRandint 7 30 d.ltRaw }

/-- The suppliers loop: `for i in range(20)`. -/
def genSuppliers (fkCompany : Nat → String) (sd : Nat → SupDraws) : List Supplier :=
  (List.range 20).map (fun i => mkSupplier i (fkCompany i) (sd i))

/-- The values one inventory iteration draws from the Python `random` module:
the `scenario = random.random()` value in `[0,1)` and the `randint`/`choice`
raws for quantity, warehouse, last-counted offset and reserved quantity. -/
structure InvDraws where
  scenario : ℚ
  qtyRaw : Nat
  locRaw : Nat
  lastRaw : Nat
  resRaw : Nat
deriving DecidableEq, Repr

/-- The record one inventory iteration appends, if any
(`generate_data.py` lines 82-99).  In the source the `inventory.append(...)`
call is indented under the final `else:` (the 50% "healthy" band), so the
first three scenario bands compute a `qty` and append nothing; only the
healthy band, with `qty = randint(reorder_point, reorder_point * 3)`,
produces a record. -/
def invRecord? (now : Int) (p : Product) (d : InvDraws) : Option InventoryRecord :=
  if d.scenario < 15/100 then none
  else if d.scenario < 30/100 then none
  else if d.scenario < 50/100 then none
  else
    let qty := pyRandint p.reorder_point (p.reorder_point * 3) d.qtyRaw
    some { product_id := p.product_id
           quantity_on_hand := qty
           warehouse_location := pyChoice warehouses d.locRaw
           last_counted := now - (pyRandint 0 30 d.lastRaw : Nat)
           reserved_quantity := pyRandint 0 (min 10 qty) d.resRaw }

/-- One iteration of the inventory loop acting on the accumulated list. -/
def invStep (now : Int) (p : Product) (d : InvDraws) (inventory : List InventoryRecord) :
    List InventoryRecord :=
  match invRecord? now p d with
  | none => inventory
  | some r => inventory ++ [r]

/-- The inventory loop `for product_id in range(1, 151)`
(`generate_data.py` lines 77-103).  The loop looks up `product_id` in
`df_products`, which is the product built at index `product_id - 1`; the
CSV re-written at the end of every iteration leaves the full accumulated
list as the final contents of `data/inventory.csv`. -/
def genInventory (now : Int) (fk : Nat → FakerDraws) (pd : Nat → ProductDraws)
    (vd : Nat → InvDraws) : List InventoryRecord :=
  (List.range 150).foldl (fun inv i => invStep now (mkProduct i (fk i) (pd i)) (vd i) inv) []

/-- The values one sales-transaction iteration draws from the Python
`random` module. -/
structure TxDraws where
  pidRaw : Nat
  dateRaw : Nat
  qtyRaw : Nat
  custRaw : Nat
deriving DecidableEq, Repr

/-- One iteration of the transactions loop (`generate_data.py` lines 114-128):
`start_date = now - 180 days`, `sale_date = start_date + randint(0, 180)`,
`sale_amount = round(quantity * unit_price, 2)`. -/
def mkTransaction (now : Int) (fk : Nat → FakerDraws) (pd : Nat → ProductDraws)
    (i : Nat) (d : TxDraws) : SalesTransaction :=
  let product_id := pyRandint 1 150 d.pidRaw
  let p := mkProduct (product_id - 1) (fk (product_id - 1)) (pd (product_id - 1))
  let quantity := pyRandint 1 20 d.qtyRaw
  { transaction_id := i + 1
    product_id := product_id
    transaction_date := (now - 180) + (pyRandint 0 180 d.dateRaw : Nat)
    quantity_sold := quantity
    sale_amount := pyRound 2 ((quantity : ℚ) * p.unit_price)
    customer_type := pyChoice customerTypes d.custRaw }

/-- The transactions loop: `for i in range(800)`. -/
def genTransactions (now : Int) (fk : Nat → FakerDraws) (pd : Nat → ProductDraws)
    (td : Nat → TxDraws) : List SalesTransaction :=
  (List.range 800).map (fun i => mkTransaction now fk pd i (td i))

/-- The values one purchase-order iteration draws from the Python `random`
module: product raw, order-date offset raw, the on-time coin
`random.random()`, and the delay raw. -/
structure PODraws where
  pidRaw : Nat
  agoRaw : Nat
  coin : ℚ
  delayRaw : Nat
deriving DecidableEq, Repr

/-- One iteration of the purchase-orders loop (`generate_data.py`
lines 142-165): `order_date = now - randint(0, 180)`,
`expected_delivery = order_date + lead_time_days`, and
`actual_delivery = expected` on the 85% branch, else
`expected + randint(1, 10)`; `status` is always `'Delivered'`. -/
def mkPurchaseOrder (now : Int) (fk : Nat → FakerDraws) (pd : Nat → ProductDraws)
    (i : Nat) (d : PODraws) : PurchaseOrder :=
  let product_id := pyRandint 1 150 d.pidRaw
  let p := mkProduct (product_id - 1) (fk (product_id - 1)) (pd (product_id - 1))
  let order_date : Int := now - (pyRandint 0 180 d.agoRaw : Nat)
  let expected_delivery : Int := order_date + (p.lead_time_days : Int)
  let actual_delivery : Int :=
    if d.coin < 85/100 then expected_delivery
    else expected_delivery + (pyRandint 1 10 d.delayRaw : Nat)
  { po_id := i + 1
    product_id := product_id
    supplier_id := p.supplier_id
    order_date := order_date
    expected_delivery_date := expected_delivery
    actual_delivery_date := actual_delivery
    quantity_ordered := p.reorder_quantity
    unit_cost := p.unit_cost
    status := "Delivered" }

/-- The purchase-orders loop: `for i in range(100)`. -/
def genPurchaseOrders (now : Int) (fk : Nat → FakerDraws) (pd : Nat → ProductDraws)
    (od : Nat → PODraws) : List PurchaseOrder :=
  (List.range 100).map (fun i => mkPurchaseOrder now fk pd i (od i))

/-- The five tables written by one run of `generate_data.py`. -/
structure GenOutput where
  products : List Product
  suppliers : List Supplier
  inventory : List InventoryRecord
  sales_transactions : List SalesTransaction
  purchase_orders : List PurchaseOrder
deriving DecidableEq, Repr

/-- One full run of `generate_data.py`.  `fk`/`fkCompany` are the streams of
the seeded Faker (fixed by `Faker.seed(42)`); `pd`, `sd`, `vd`, `td`, `od`
are the draws taken from the Python `random` module, which the script never
seeds (`np.random.seed(42)` seeds NumPy's generator, which the script never
uses); `now` is the wall-clock day of `datetime.now()`. -/
def generateAll (fk : Nat → FakerDraws) (fkCompany : Nat → String)
    (pd : Nat → ProductDraws) (sd : Nat → SupDraws) (vd : Nat → InvDraws)
    (td : Nat → TxDraws) (od : Nat → PODraws) (now : Int) : GenOutput :=
  { products := genProducts fk pd
    suppliers := genSuppliers fkCompany sd
    inventory := genInventory now fk pd vd
    sales_transactions := genTransactions now fk pd td
    purchase_orders := genPurchaseOrders now fk pd od }

/-! ## `create_database.py` -/

/-- One `CREATE TABLE` statement of the schema-creation routine: the target
table name and its column names in declaration order. -/
structure CreateTableStmt where
  ifNotExists : Bool
  tableName : String
  columns : List String
deriving DecidableEq, Repr

/-- Column set of the products table (`create_database.py` lines 21-35). -/
def productsColumns : List String :=
  ["product_id", "sku", "product_name", "category", "unit_cost", "unit_price",
   "reorder_point", "reorder_quantity", "safety_stock", "supplier_id", "lead_time_days"]

/-- Column set of the supplier-table block (`create_database.py` lines 38-45). -/
def supplierColumns : List String :=
  ["supplier_id", "supplier_name", "country", "reliability_score", "avg_lead_time"]

/-- Column set of the inventory table (`create_database.py` lines 48-56). -/
def inventoryColumns : List String :=
  ["product_id", "quantity_on_hand", "warehouse_location", "last_counted",
   "reserved_quantity"]

/-- Column set of the sales-transactions table (`create_database.py` lines 59-68). -/
def salesColumns : List String :=
  ["transaction_id", "product_id", "transaction_date", "quantity_sold",
   "sale_amount", "customer_type"]

/-- Column set of the purchase-orders table (`create_database.py` lines 71-84);
the misspelling `acutal_delivery_date` is in the source. -/
def purchaseOrdersColumns : List String :=
  ["po_id", "product_id", "supplier_id", "order_date", "expected_delivery_date",
   "acutal_delivery_date", "quantity_ordered", "unit_cost", "status"]

/-- The five `CREATE TABLE IF NOT EXISTS` statements executed by
`create_database.py`, in order.  The second statement is the block commented
`# Suppliers table`: its statement text is
`CREATE TABLE IF NOT EXISTS products(supplier_id INTEGER PRIMARY KEY, ...)` —
it targets the table name `products` (already created by the first statement,
so it is a no-op) while listing the distinct supplier columns. -/
def createTableStatements : List CreateTableStmt :=
  [⟨true, "products", productsColumns⟩,
   ⟨true, "products", supplierColumns⟩,
   ⟨true, "inventory", inventoryColumns⟩,
   ⟨true, "sales_transactions", salesColumns⟩,
   ⟨true, "purchase_orders", purchaseOrdersColumns⟩]

/-- The five CSV files read by the loader (`create_database.py` lines 95-118). -/
structure CSVSet where
  products : List Product
  suppliers : List Supplier
  inventory : List InventoryRecord
  sales_transactions : List SalesTransaction
  purchase_orders : List PurchaseOrder
deriving DecidableEq, Repr

/-- The contents of the five tables of `inventory.db`. -/
structure Database where
  products : List Product
  suppliers : List Supplier
  inventory : List InventoryRecord
  sales_transactions : List SalesTransaction
  purchase_orders : List PurchaseOrder
deriving DecidableEq, Repr

/-- The load step (`create_database.py` lines 95-118): each
`df.to_sql(..., if_exists='replace')` drops any existing table of that name
and recreates it from the CSV contents, so every table of the resulting
database is exactly the corresponding CSV. -/
def load_csv_data (csv : CSVSet) (_db : Database) : Database :=
  { products := csv.products
    suppliers := csv.suppliers
    inventory := csv.inventory
    sales_transactions := csv.sales_transactions
    purchase_orders := csv.purchase_orders }

/-! ## `visualize_results.py` -/

/-- The `CASE` expression of the stockout-alert query
(`visualize_results.py` lines 29-34), per joined (product, inventory) row. -/
def alertLevel (quantity_on_hand safety_stock reorder_point : Nat) : String :=
  if quantity_on_hand = 0 then "CRITICAL - Out of Stock"
  else if quantity_on_hand < safety_stock then "URGENT - Below Safety"
  else if quantity_on_hand < reorder_point then "WARNING - Below Reorder"
  else "OK"

/-- The `ORDER BY CASE` sort key of the stockout-alert query
(`visualize_results.py` lines 39-45). -/
def alertPriority (level : String) : Nat :=
  if level = "CRITICAL - Out of Stock" then 1
  else if level = "URGENT - Below Safety" then 2
  else if level = "WARNING - Below Reorder" then 3
  else 4

/-- The `CASE` classifier of the ABC query (`visualize_results.py`
lines 102-106), applied to the exact cumulative percentage. -/
def abcLabel (pct : ℚ) : String :=
  if pct ≤ 80 then "A" else if pct ≤ 95 then "B" else "C"

/-- The running-cumulative scan over the value column already ranked
descending: each entry is `(total_value, cumulative_pct, abc_category)`
with `cumulative_pct = 100 * cumulative_value / grand_total`
(`visualize_results.py` lines 88-106). -/
def abcEntries (total cum : ℚ) : List ℚ → List (ℚ × ℚ × String)
  | [] => []
  | v :: rest =>
    let c := cum + v
    let pct := 100 * c / total
    (v, pct, abcLabel pct) :: abcEntries total c rest

/-- The ABC query on a list of per-product inventory values: rank by value
descending (`ORDER BY total_value DESC`), then the window
`SUM(total_value) OVER (ORDER BY total_value DESC ROWS BETWEEN UNBOUNDED
PRECEDING AND CURRENT ROW)` against `grand_total = SUM(total_value) OVER ()`. -/
def abcTable (values : List ℚ) : List (ℚ × ℚ × String) :=
  abcEntries values.sum 0 (values.insertionSort (fun a b => b ≤ a))

/-- `total_value` of the ABC query's `inventory_value` CTE:
`i.quantity_on_hand * p.unit_cost` (`visualize_results.py` line 84). -/
def inventoryValue (p : Product) (r : InventoryRecord) : ℚ :=
  (r.quantity_on_hand : ℚ) * p.unit_cost

/-- The ABC query end to end: join products to inventory on `product_id`,
take `quantity_on_hand * unit_cost` per joined row, then rank and classify. -/
def abcAnalysis (ps : List Product) (inv : List InventoryRecord) : List (ℚ × ℚ × String) :=
  abcTable ((ps.flatMap (fun p =>
    (inv.filter (fun r => r.product_id = p.product_id)).map (inventoryValue p))))

/-- SQL `NULLIF(x, y)`. -/
def nullif (x y : ℚ) : Option ℚ := if x = y then none else some x

/-- `turnover_ratio` of the turnover query (`visualize_results.py` line 191):
`ROUND(cogs / NULLIF(inventory_value, 0), 2)`, `NULL` when the category's
inventory value is zero. -/
def turnover_ratio (cogs inventory_value : ℚ) : Option ℚ :=
  (nullif inventory_value 0).map (fun d => sqlRound2 (cogs / d))

/-- `days_inventory` of the turnover query (`visualize_results.py` line 192):
`ROUND(365.0 / NULLIF(cogs / NULLIF(inventory_value, 0), 0), 0)`, `NULL`
when the inventory value is zero or the raw turnover is zero. -/
def days_inventory (cogs inventory_value : ℚ) : Option ℚ :=
  match nullif inventory_value 0 with
  | none => none
  | some d =>
    match nullif (cogs / d) 0 with
    | none => none
    | some t => some (sqlRound0 (365 / t))

/-- `cogs` of the turnover query's `sales_summary` CTE for one category:
`SUM(st.quantity_sold * p.unit_cost)` over transactions joined to products
(`visualize_results.py` lines 173-179). -/
def sqlCogs (ps : List Product) (txs : List SalesTransaction) (cat : String) : ℚ :=
  (txs.flatMap (fun st =>
    (ps.filter (fun p => p.product_id = st.product_id ∧ p.category = cat)).map
      (fun p => (st.quantity_sold : ℚ) * p.unit_cost))).sum

/-- `avg_inventory_value` of the turnover query's `inventory_summary` CTE for
one category: `SUM(i.quantity_on_hand * p.unit_cost)`
(`visualize_results.py` lines 181-188). -/
def sqlInvValue (ps : List Product) (inv : List InventoryRecord) (cat : String) : ℚ :=
  (inv.flatMap (fun r =>
    (ps.filter (fun p => p.product_id = r.product_id ∧ p.category = cat)).map
      (fun p => inventoryValue p r))).sum

/-! ## Concrete streams used for evaluation theorems and witnesses -/

/-- A concrete seeded-Faker stream for the product loop. -/
def fk0 : Nat → FakerDraws := fun _ => { sku := "000000", w1 := "Alpha", w2 := "Beta" }

/-- A concrete seeded-Faker stream for supplier names. -/
def fkCompany0 : Nat → String := fun _ => "Acme"

/-- A concrete stream of product draws (all raws zero). -/
def pd0 : Nat → ProductDraws :=
  fun _ => { catRaw := 0, ssRaw := 0, rpRaw := 0, rqRaw := 0, supRaw := 0, ltRaw := 0,
             costU := 0, priceU := 0 }

/-- A second stream of product draws differing only in the category choice. -/
def pdAlt : Nat → ProductDraws :=
  fun _ => { catRaw := 1, ssRaw := 0, rpRaw := 0, rqRaw := 0, supRaw := 0, ltRaw := 0,
             costU := 0, priceU := 0 }

/-- A concrete supplier-draw stream. -/
def sd0 : Nat → SupDraws := fun _ => { countryRaw := 0, relU := 0, ltRaw := 0 }

/-- An inventory-draw stream whose scenario value always falls in the first
(out-of-stock) band. -/
def invLow : Nat → InvDraws :=
  fun _ => { scenario := 1/10, qtyRaw := 0, locRaw := 0, lastRaw := 0, resRaw := 0 }

/-- An inventory-draw stream whose scenario value always falls in the healthy
band. -/
def invHealthy : Nat → InvDraws :=
  fun _ => { scenario := 9/10, qtyRaw := 0, locRaw := 0, lastRaw := 0, resRaw := 0 }

/-- A concrete transaction-draw stream. -/
def td0 : Nat → TxDraws := fun _ => { pidRaw := 0, dateRaw := 0, qtyRaw := 0, custRaw := 0 }

/-- A concrete purchase-order-draw stream (the on-time coin is 0 < 0.85). -/
def pod0 : Nat → PODraws := fun _ => { pidRaw := 0, agoRaw := 0, coin := 0, delayRaw := 0 }

/-! ## Helper lemmas -/

theorem invStep_eq (now : Int) (p : Product) (d : InvDraws) (inv : List InventoryRecord) :
    invStep now p d inv = inv ++ (invRecord? now p d).toList := by
  unfold invStep
  cases invRecord? now p d with
  | none => simp
  | some r => simp

theorem foldl_append_toList {α β : Type} (f : α → Option β) (l : List α) (acc : List β) :
    l.foldl (fun inv i => inv ++ (f i).toList) acc = acc ++ l.filterMap f := by
  induction l generalizing acc with
  | nil => simp
  | cons i t ih =>
    rw [List.foldl_cons, ih]
    cases h : f i with
    | none => simp [h, List.filterMap_cons]
    | some r => simp [h, List.filterMap_cons]

/-- The inventory loop is the `filterMap` of the per-iteration optional record
over the 150 products. -/
theorem genInventory_eq (now : Int) (fk : Nat → FakerDraws) (pd : Nat → ProductDraws)
    (vd : Nat → InvDraws) :
    genInventory now fk pd vd
      = (List.range 150).filterMap
          (fun i => invRecord? now (mkProduct i (fk i) (pd i)) (vd i)) := by
  unfold genInventory
  rw [show (fun (inv : List InventoryRecord) (i : Nat) =>
        invStep now (mkProduct i (fk i) (pd i)) (vd i) inv)
      = fun inv i => inv ++ (invRecord? now (mkProduct i (fk i) (pd i)) (vd i)).toList
    from funext fun inv => funext fun i => invStep_eq now (mkProduct i (fk i) (pd i)) (vd i) inv]
  rw [foldl_append_toList]
  simp

/-- The generated replenishment thresholds: safety stock in `[10, 50]` and
reorder point in `[safety_stock + 10, 100]`. -/
theorem mkProduct_stock_bounds (i : Nat) (f : FakerDraws) (d : ProductDraws) :
    10 ≤ (mkProduct i f d).safety_stock ∧ (mkProduct i f d).safety_stock ≤ 50 ∧
      (mkProduct i f d).safety_stock + 10 ≤ (mkProduct i f d).reorder_point ∧
      (mkProduct i f d).reorder_point ≤ 100 :=
  ⟨pyRandint_ge 10 50 d.ssRaw,
   pyRandint_le 10 50 d.ssRaw (by omega),
   pyRandint_ge (pyRandint 10 50 d.ssRaw + 10) 100 d.rpRaw,
   pyRandint_le (pyRandint 10 50 d.ssRaw + 10) 100 d.rpRaw
     (by have := pyRandint_le 10 50 d.ssRaw (by omega); omega)⟩

theorem alertLevel_ok (q s rp : Nat) (h0 : q ≠ 0) (hs : ¬ q < s) (hr : ¬ q < rp) :
    alertLevel q s rp = "OK" := by
  unfold alertLevel
  rw [if_neg h0, if_neg hs, if_neg hr]

/-! ## Claim theorems -/

/-- Claim C10: every generated product has `safety_stock < reorder_point`:
the generator draws `safety_stock` from `[10, 50]` first and then draws
`reorder_point` from `[safety_stock + 10, 100]`, so the invariant holds by
construction for all 150 products, whatever the random stream yields. -/
theorem safety_stock_lt_reorder_point (fk : Nat → FakerDraws) (pd : Nat → ProductDraws) :
    (genProducts fk pd).length = 150 ∧
      ∀ p ∈ genProducts fk pd, p.safety_stock < p.reorder_point := by
  constructor
  · simp [genProducts]
  · intro p hp
    simp only [genProducts, List.mem_map] at hp
    obtain ⟨i, -, rfl⟩ := hp
    have h := mkProduct_stock_bounds i (fk i) (pd i)
    omega

/-- Witness for C10 at a concrete stream: the first generated product. -/
theorem safety_stock_lt_reorder_point_witness :
    (mkProduct 0 (fk0 0) (pd0 0)).safety_stock < (mkProduct 0 (fk0 0) (pd0 0)).reorder_point :=
  (safety_stock_lt_reorder_point fk0 pd0).2 _
    (List.mem_map.2 ⟨0, List.mem_range.2 (by omega), rfl⟩)

/-- Claim C2: every inventory record the generator actually appends (and hence
writes to `data/inventory.csv`) comes from the healthy branch only: its
quantity on hand lies in `[reorder_point, reorder_point * 3]` of its product,
so `quantity_on_hand ≥ reorder_point > safety_stock > 0`; consequently the
`WHERE i.quantity_on_hand < p.reorder_point` filter of the reorder-priority
and summary queries matches no generated row, and the stockout classifier
labels every generated row `OK` (never CRITICAL, URGENT or WARNING). -/
theorem generated_inventory_healthy_only (now : Int) (fk : Nat → FakerDraws)
    (pd : Nat → ProductDraws) (vd : Nat → InvDraws) :
    ∀ r ∈ genInventory now fk pd vd, ∃ p ∈ genProducts fk pd,
      r.product_id = p.product_id ∧
      p.reorder_point ≤ r.quantity_on_hand ∧
      r.quantity_on_hand ≤ p.reorder_point * 3 ∧
      p.safety_stock < p.reorder_point ∧
      0 < p.safety_stock ∧
      ¬ r.quantity_on_hand < p.reorder_point ∧
      alertLevel r.quantity_on_hand p.safety_stock p.reorder_point = "OK" := by
  intro r hr
  rw [genInventory_eq] at hr
  rcases List.mem_filterMap.1 hr with ⟨i, hi, hf⟩
  have hb := mkProduct_stock_bounds i (fk i) (pd i)
  set p := mkProduct i (fk i) (pd i) with hp
  obtain ⟨hb1, hb2, hb3, hb4⟩ := hb
  refine ⟨p, List.mem_map.2 ⟨i, hi, hp.symm⟩, ?_⟩
  simp only [invRecord?] at hf
  by_cases h1 : (vd i).scenario < 15/100
  · rw [if_pos h1] at hf; exact Option.noConfusion hf
  rw [if_neg h1] at hf
  by_cases h2 : (vd i).scenario < 30/100
  · rw [if_pos h2] at hf; exact Option.noConfusion hf
  rw [if_neg h2] at hf
  by_cases h3 : (vd i).scenario < 50/100
  · rw [if_pos h3] at hf; exact Option.noConfusion hf
  rw [if_neg h3] at hf
  have he := Option.some_inj.1 hf
  have hqty : r.quantity_on_hand
      = pyRandint p.reorder_point (p.reorder_point * 3) ((vd i).qtyRaw) := by
    rw [← he]
  have hpid : r.product_id = p.product_id := by rw [← he]
  have hge : p.reorder_point ≤ r.quantity_on_hand := by
    rw [hqty]; exact pyRandint_ge _ _ _
  have hle : r.quantity_on_hand ≤ p.reorder_point * 3 := by
    rw [hqty]; exact pyRandint_le _ _ _ (by omega)
  exact ⟨hpid, hge, hle, by omega, by omega, by omega,
    alertLevel_ok _ _ _ (by omega) (by omega) (by omega)⟩

/-- Witness for C2 at a concrete stream whose scenario always lands in the
healthy band: the record generated for product 1. -/
theorem generated_inventory_healthy_only_witness :
    ∃ p ∈ genProducts fk0 pd0,
      (⟨1, 20, "Warehouse A", 0, 0⟩ : InventoryRecord).product_id = p.product_id ∧
      p.reorder_point ≤ (⟨1, 20, "Warehouse A", 0, 0⟩ : InventoryRecord).quantity_on_hand ∧
      (⟨1, 20, "Warehouse A", 0, 0⟩ : InventoryRecord).quantity_on_hand
        ≤ p.reorder_point * 3 ∧
      p.safety_stock < p.reorder_point ∧
      0 < p.safety_stock ∧
      ¬ (⟨1, 20, "Warehouse A", 0, 0⟩ : InventoryRecord).quantity_on_hand
          < p.reorder_point ∧
      alertLevel (⟨1, 20, "Warehouse A", 0, 0⟩ : InventoryRecord).quantity_on_hand
        p.safety_stock p.reorder_point = "OK" :=
  generated_inventory_healthy_only 0 fk0 pd0 invHealthy
    ⟨1, 20, "Warehouse A", 0, 0⟩ (by
      rw [genInventory_eq]
      refine List.mem_filterMap.2 ⟨0, List.mem_range.2 (by omega), ?_⟩
      simp only [invRecord?]
      rw [if_neg (by norm_num [invHealthy]), if_neg (by norm_num [invHealthy]),
        if_neg (by norm_num [invHealthy])]
      rfl)

/-- Claim C1 (evaluation at the failing input): when every scenario draw falls
below 0.5 the generator appends no inventory record at all, although it still
creates 150 products — the written inventory dataset is not one-to-one with
products, because `inventory.append` is indented inside the healthy `else`
branch of `generate_data.py`. -/
theorem inventory_not_one_record_per_product :
    genInventory 0 fk0 pd0 invLow = [] ∧
      (genProducts fk0 pd0).length = 150 ∧
      ¬ ∃ r ∈ genInventory 0 fk0 pd0 invLow, r.product_id = 1 := by
  have h : genInventory 0 fk0 pd0 invLow = [] := by
    rw [genInventory_eq]
    rw [List.filterMap_eq_nil_iff]
    intro i hi
    simp only [invRecord?]
    rw [if_pos (show (invLow i).scenario < 15/100 by norm_num [invLow])]
  refine ⟨h, by simp [genProducts], ?_⟩
  rw [h]
  rintro ⟨r, hr, -⟩
  exact absurd hr (List.not_mem_nil r)

/-- Claim C3 (evaluation at the failing input): with the seeded Faker streams
held fixed (as `Faker.seed(42)` fixes them), two runs whose unseeded Python
`random` module yields different draws produce different generator output —
the five written tables are not a function of the seed, because
`generate_data.py` never calls `random.seed` although every business value is
drawn from the `random` module. -/
theorem generator_output_depends_on_unseeded_randomness :
    generateAll fk0 fkCompany0 pd0 sd0 invHealthy td0 pod0 0
      ≠ generateAll fk0 fkCompany0 pdAlt sd0 invHealthy td0 pod0 0 := fun h =>
  absurd (congrArg (fun o => (GenOutput.products o).head?.map Product.category) h)
    (by decide)

/-- Claim C4 counterexample: the supplier-table statement of
`create_database.py` is NOT declared with the products schema's column set —
its column list is the distinct supplier column set. -/
theorem supplier_block_columns_not_products_columns :
    (createTableStatements.getD 1 ⟨true, "", []⟩).columns ≠ productsColumns := by decide

/-- Claim C4 amended: the defect in the supplier-table block is that it reuses
the products table NAME — the statement reads `CREATE TABLE IF NOT EXISTS
products(...)` with the distinct supplier columns, so the schema routine never
creates a table named `suppliers` at all. -/
theorem supplier_block_reuses_products_table_name :
    (createTableStatements.getD 1 ⟨true, "", []⟩).tableName = "products" ∧
      (createTableStatements.getD 1 ⟨true, "", []⟩).columns = supplierColumns ∧
      supplierColumns ≠ productsColumns ∧
      createTableStatements.map CreateTableStmt.tableName
        = ["products", "products", "inventory", "sales_transactions", "purchase_orders"] ∧
      createTableStatements.all (fun s => s.tableName != "suppliers") = true := by decide

/-- Claim C8: the load step fully replaces each of the five tables with the
CSV contents (truncate-and-reload), the result does not depend on the prior
database contents, and loading the same CSV set twice is idempotent — it
leaves the very same database state, hence identical row counts and identical
results for every aggregate query. -/
theorem loader_replace_and_idempotent (csv : CSVSet) (db db2 : Database)
    (q : Database → ℚ) :
    load_csv_data csv (load_csv_data csv db) = load_csv_data csv db ∧
      (load_csv_data csv db).products = csv.products ∧
      (load_csv_data csv db).suppliers = csv.suppliers ∧
      (load_csv_data csv db).inventory = csv.inventory ∧
      (load_csv_data csv db).sales_transactions = csv.sales_transactions ∧
      (load_csv_data csv db).purchase_orders = csv.purchase_orders ∧
      load_csv_data csv db = load_csv_data csv db2 ∧
      (load_csv_data csv (load_csv_data csv db)).products.length
        = (load_csv_data csv db).products.length ∧
      q (load_csv_data csv (load_csv_data csv db)) = q (load_csv_data csv db) :=
  ⟨rfl, rfl, rfl, rfl, rfl, rfl, rfl, rfl, rfl⟩

theorem alertLevel_critical_iff (q s rp : Nat) :
    alertLevel q s rp = "CRITICAL - Out of Stock" ↔ q = 0 := by
  unfold alertLevel
  split_ifs with h0 hs hr
  · exact iff_of_true rfl h0
  · exact iff_of_false (by decide) h0
  · exact iff_of_false (by decide) h0
  · exact iff_of_false (by decide) h0

theorem alertLevel_urgent_iff (q s rp : Nat) :
    alertLevel q s rp = "URGENT - Below Safety" ↔ (q ≠ 0 ∧ q < s) := by
  unfold alertLevel
  split_ifs with h0 hs hr
  · exact iff_of_false (by decide) (fun h => h.1 h0)
  · exact iff_of_true rfl ⟨h0, hs⟩
  · exact iff_of_false (by decide) (fun h => hs h.2)
  · exact iff_of_false (by decide) (fun h => hs h.2)

theorem alertLevel_warning_iff (q s rp : Nat) :
    alertLevel q s rp = "WARNING - Below Reorder" ↔ (q ≠ 0 ∧ ¬ q < s ∧ q < rp) := by
  unfold alertLevel
  split_ifs with h0 hs hr
  · exact iff_of_false (by decide) (fun h => h.1 h0)
  · exact iff_of_false (by decide) (fun h => h.2.1 hs)
  · exact iff_of_true rfl ⟨h0, hs, hr⟩
  · exact iff_of_false (by decide) (fun h => hr h.2.2)

theorem alertLevel_ok_iff (q s rp : Nat) :
    alertLevel q s rp = "OK" ↔ (q ≠ 0 ∧ ¬ q < s ∧ ¬ q < rp) := by
  unfold alertLevel
  split_ifs with h0 hs hr
  · exact iff_of_false (by decide) (fun h => h.1 h0)
  · exact iff_of_false (by decide) (fun h => h.2.1 hs)
  · exact iff_of_false (by decide) (fun h => h.2.2 hr)
  · exact iff_of_true rfl ⟨h0, hs, hr⟩

/-- Claim C5: the stockout classifier assigns, for every joined row,
CRITICAL exactly when on-hand is 0 (regardless of safety stock), URGENT
exactly when 0 < on-hand < safety_stock, WARNING exactly when on-hand is at
least safety_stock but below reorder_point, and OK otherwise; a row with
on-hand exactly equal to safety_stock is never URGENT (the comparison is a
strict less-than); and the `ORDER BY` key emits the classes in the fixed
priority order CRITICAL, URGENT, WARNING, OK. -/
theorem stockout_alert_classification (q s rp : Nat) :
    (alertLevel q s rp = "CRITICAL - Out of Stock" ↔ q = 0) ∧
      (alertLevel q s rp = "URGENT - Below Safety" ↔ (q ≠ 0 ∧ q < s)) ∧
      (alertLevel q s rp = "WARNING - Below Reorder" ↔ (q ≠ 0 ∧ ¬ q < s ∧ q < rp)) ∧
      (alertLevel q s rp = "OK" ↔ (q ≠ 0 ∧ ¬ q < s ∧ ¬ q < rp)) ∧
      alertLevel s s rp ≠ "URGENT - Below Safety" ∧
      alertPriority "CRITICAL - Out of Stock" = 1 ∧
      alertPriority "URGENT - Below Safety" = 2 ∧
      alertPriority "WARNING - Below Reorder" = 3 ∧
      alertPriority "OK" = 4 :=
  ⟨alertLevel_critical_iff q s rp, alertLevel_urgent_iff q s rp,
   alertLevel_warning_iff q s rp, alertLevel_ok_iff q s rp,
   fun h => Nat.lt_irrefl s ((alertLevel_urgent_iff s s rp).1 h).2,
   by decide, by decide, by decide, by decide⟩

theorem abcLabel_A_iff (pct : ℚ) : abcLabel pct = "A" ↔ pct ≤ 80 := by
  unfold abcLabel
  split_ifs with h1 h2
  · exact iff_of_true rfl h1
  · exact iff_of_false (by decide) h1
  · exact iff_of_false (by decide) h1

theorem abcLabel_B_iff (pct : ℚ) : abcLabel pct = "B" ↔ (¬ pct ≤ 80 ∧ pct ≤ 95) := by
  unfold abcLabel
  split_ifs with h1 h2
  · exact iff_of_false (by decide) (fun h => h.1 h1)
  · exact iff_of_true rfl ⟨h1, h2⟩
  · exact iff_of_false (by decide) (fun h => h2 h.2)

theorem abcLabel_C_iff (pct : ℚ) : abcLabel pct = "C" ↔ (¬ pct ≤ 80 ∧ ¬ pct ≤ 95) := by
  unfold abcLabel
  split_ifs with h1 h2
  · exact iff_of_false (by decide) (fun h => h.1 h1)
  · exact iff_of_false (by decide) (fun h => h.2 h2)
  · exact iff_of_true rfl ⟨h1, h2⟩

theorem abcEntries_label (total : ℚ) :
    ∀ (l : List ℚ) (cum : ℚ) (e : ℚ × ℚ × String),
      e ∈ abcEntries total cum l → e.2.2 = abcLabel e.2.1 := by
  intro l
  induction l with
  | nil => intro cum e he; exact absurd he (List.not_mem_nil e)
  | cons v rest ih =>
    intro cum e he
    rcases List.mem_cons.1 he with h | h
    · rw [h]
    · exact ih _ e h

theorem abcEntries_map_fst (total : ℚ) :
    ∀ (l : List ℚ) (cum : ℚ), (abcEntries total cum l).map (fun e => e.1) = l := by
  intro l
  induction l with
  | nil => intro cum; rfl
  | cons v rest ih => intro cum; simp [abcEntries, ih]

instance : IsTotal ℚ (fun a b : ℚ => b ≤ a) := ⟨fun a b => le_total b a⟩

instance : IsTrans ℚ (fun a b : ℚ => b ≤ a) := ⟨fun _ _ _ hab hbc => le_trans hbc hab⟩

/-- The three products of the spec's worked ABC example: inventory values
`100 × 8 = 800`, `50 × 3 = 150`, `50 × 1 = 50`. -/
def abcProducts3 : List Product :=
  [⟨1, "SKU-1", "P1", "Electronics", 8, 16, 20, 50, 10, 1, 7⟩,
   ⟨2, "SKU-2", "P2", "Clothing", 3, 6, 20, 50, 10, 1, 7⟩,
   ⟨3, "SKU-3", "P3", "Food", 1, 2, 20, 50, 10, 1, 7⟩]

/-- Matching inventory rows for the ABC example. -/
def abcInventory3 : List InventoryRecord :=
  [⟨1, 100, "Warehouse A", 0, 0⟩, ⟨2, 50, "Warehouse A", 0, 0⟩, ⟨3, 50, "Warehouse A", 0, 0⟩]

/-- Claim C6: the ABC query computes each product's inventory value as
on-hand × unit cost, ranks values descending, accumulates a running
cumulative percentage of the grand total, and labels an entry `A` exactly
when its cumulative percentage is ≤ 80, `B` exactly when it exceeds 80 but is
≤ 95, and `C` exactly when it exceeds 95; on the spec's worked example
(joined values 800, 150, 50) the cumulative percentages are 80, 95, 100 and
the labels are A, B, C. -/
theorem abc_analysis_pareto :
    (∀ (vs : List ℚ) (e : ℚ × ℚ × String), e ∈ abcTable vs →
        (e.2.2 = "A" ↔ e.2.1 ≤ 80) ∧
        (e.2.2 = "B" ↔ (¬ e.2.1 ≤ 80 ∧ e.2.1 ≤ 95)) ∧
        (e.2.2 = "C" ↔ (¬ e.2.1 ≤ 80 ∧ ¬ e.2.1 ≤ 95))) ∧
      (∀ vs : List ℚ,
        (abcTable vs).map (fun e => e.1) = vs.insertionSort (fun a b => b ≤ a) ∧
        List.Sorted (fun a b : ℚ => b ≤ a) ((abcTable vs).map (fun e => e.1))) ∧
      (∀ (p : Product) (r : InventoryRecord),
        inventoryValue p r = (r.quantity_on_hand : ℚ) * p.unit_cost) ∧
      abcAnalysis abcProducts3 abcInventory3
        = [(800, 80, "A"), (150, 95, "B"), (50, 100, "C")] := by
  refine ⟨?_, ?_, fun p r => rfl, ?_⟩
  · intro vs e he
    have hl := abcEntries_label vs.sum _ _ e he
    rw [hl]
    exact ⟨abcLabel_A_iff e.2.1, abcLabel_B_iff e.2.1, abcLabel_C_iff e.2.1⟩
  · intro vs
    have hm := abcEntries_map_fst vs.sum (vs.insertionSort (fun a b => b ≤ a)) 0
    refine ⟨hm, ?_⟩
    rw [show (abcTable vs).map (fun e => e.1) = vs.insertionSort (fun a b => b ≤ a) from hm]
    exact List.sorted_insertionSort (fun a b : ℚ => b ≤ a) vs
  · show abcTable _ = _
    norm_num [abcAnalysis, abcProducts3, abcInventory3, inventoryValue, abcTable,
      abcEntries, abcLabel, List.insertionSort, List.orderedInsert]

/-- Witness for C6: the top entry of the worked example's table satisfies the
label characterization. -/
theorem abc_analysis_pareto_witness :
    ((800 : ℚ), (80 : ℚ), "A") ∈ abcTable [800, 150, 50] ∧
      ((((800 : ℚ), (80 : ℚ), "A") : ℚ × ℚ × String).2.2 = "A"
        ↔ (((800 : ℚ), (80 : ℚ), "A") : ℚ × ℚ × String).2.1 ≤ 80) :=
  ⟨by norm_num [abcTable, abcEntries, abcLabel, List.insertionSort, List.orderedInsert],
   (abc_analysis_pareto.1 [800, 150, 50] ((800 : ℚ), (80 : ℚ), "A")
     (by norm_num [abcTable, abcEntries, abcLabel, List.insertionSort,
       List.orderedInsert])).1⟩

/-- A one-product dataset realizing the spec's turnover example: COGS
`100 × 4 = 400` against inventory value `25 × 4 = 100` for category `Food`. -/
def turnoverProducts1 : List Product := [⟨1, "SKU-1", "P1", "Food", 4, 8, 20, 50, 10, 1, 7⟩]

/-- The single sale of the turnover example: 100 units sold. -/
def turnoverTxs1 : List SalesTransaction := [⟨1, 1, 0, 100, 800, "Retail"⟩]

/-- The single inventory row of the turnover example: 25 units on hand. -/
def turnoverInv1 : List InventoryRecord := [⟨1, 25, "Warehouse A", 0, 0⟩]

/-- Claim C7 counterexample: at the spec's own example (COGS = 400,
inventory value = 100) the turnover query reports days-of-inventory
outstanding as `ROUND(365.0/4, 0) = 91`, not `91.25`. -/
theorem days_outstanding_reported_whole_not_fractional :
    days_inventory 400 100 ≠ some (365 / 4 : ℚ) ∧ days_inventory 400 100 = some 91 := by
  have h : days_inventory 400 100 = some 91 := by
    norm_num [days_inventory, nullif, sqlRound0]
  refine ⟨?_, h⟩
  rw [h]
  intro hc
  have h2 := Option.some_inj.1 hc
  norm_num at h2

/-- Claim C7 amended: per-category turnover is COGS (sum of quantity sold ×
unit cost over the joined transactions) divided by current inventory value,
rounded to 2 decimals; days-of-inventory-outstanding is 365/turnover rounded
to the nearest whole number of days (91 for the COGS = 400, inventory = 100
example, whose raw quotient is 91.25); and whenever the category's inventory
value is 0 — or its raw turnover is 0 — the query reports NULL rather than
infinity or a crash. -/
theorem turnover_days_null_guard_and_rounding :
    turnover_ratio 400 100 = some 4 ∧
      days_inventory 400 100 = some 91 ∧
      (∀ cogs : ℚ, turnover_ratio cogs 0 = none) ∧
      (∀ cogs : ℚ, days_inventory cogs 0 = none) ∧
      (∀ inv : ℚ, days_inventory 0 inv = none) ∧
      sqlCogs turnoverProducts1 turnoverTxs1 "Food" = 400 ∧
      sqlInvValue turnoverProducts1 turnoverInv1 "Food" = 100 := by
  refine ⟨?_, ?_, ?_, ?_, ?_, ?_, ?_⟩
  · norm_num [turnover_ratio, nullif, sqlRound2, sqlRound0]
  · norm_num [days_inventory, nullif, sqlRound0]
  · intro cogs; simp [turnover_ratio, nullif]
  · intro cogs; simp [days_inventory, nullif]
  · intro inv
    by_cases h : inv = 0
    · simp [days_inventory, nullif, h]
    · simp [days_inventory, nullif, h, zero_div]
  · norm_num [sqlCogs, turnoverProducts1, turnoverTxs1, inventoryValue]
  · norm_num [sqlInvValue, turnoverProducts1, turnoverInv1, inventoryValue]

/-- Claim C9: for every generated purchase order, the expected delivery date
equals the order date plus the referenced product's lead time; the actual
delivery date is never earlier than the expected one; on the on-time branch
(`random.random() < 0.85`) actual equals expected, and on the 15% delayed
branch actual is expected plus a 1-10 day delay; the stored status is always
`'Delivered'`. -/
theorem purchase_order_delivery_dates (now : Int) (fk : Nat → FakerDraws)
    (pd : Nat → ProductDraws) (od : Nat → PODraws) :
    ∀ po ∈ genPurchaseOrders now fk pd od,
      po.status = "Delivered" ∧
      po.expected_delivery_date ≤ po.actual_delivery_date ∧
      (∃ p ∈ genProducts fk pd,
        po.product_id = p.product_id ∧
        po.supplier_id = p.supplier_id ∧
        po.expected_delivery_date = po.order_date + (p.lead_time_days : Int)) ∧
      (∃ i, i < 100 ∧ po = mkPurchaseOrder now fk pd i (od i) ∧
        ((od i).coin < 85/100 → po.actual_delivery_date = po.expected_delivery_date) ∧
        (¬ (od i).coin < 85/100 →
          po.expected_delivery_date + 1 ≤ po.actual_delivery_date ∧
          po.actual_delivery_date ≤ po.expected_delivery_date + 10)) := by
  intro po hpo
  simp only [genPurchaseOrders, List.mem_map] at hpo
  obtain ⟨i, hi, rfl⟩ := hpo
  have hpid1 : 1 ≤ pyRandint 1 150 ((od i).pidRaw) := pyRandint_ge _ _ _
  have hpid2 : pyRandint 1 150 ((od i).pidRaw) ≤ 150 := pyRandint_le _ _ _ (by omega)
  have hdel1 : 1 ≤ pyRandint 1 10 ((od i).delayRaw) := pyRandint_ge _ _ _
  have hdel2 : pyRandint 1 10 ((od i).delayRaw) ≤ 10 := pyRandint_le _ _ _ (by omega)
  refine ⟨rfl, ?_,
    ⟨mkProduct (pyRandint 1 150 ((od i).pidRaw) - 1)
        (fk (pyRandint 1 150 ((od i).pidRaw) - 1)) (pd (pyRandint 1 150 ((od i).pidRaw) - 1)),
      List.mem_map.2 ⟨pyRandint 1 150 ((od i).pidRaw) - 1,
        List.mem_range.2 (by omega), rfl⟩, ?_, rfl, rfl⟩,
    i, List.mem_range.1 hi, rfl, ?_, ?_⟩
  · show (mkPurchaseOrder now fk pd i (od i)).expected_delivery_date
      ≤ (mkPurchaseOrder now fk pd i (od i)).actual_delivery_date
    simp only [mkPurchaseOrder]
    split_ifs with hc
    · exact le_refl _
    · omega
  · show pyRandint 1 150 ((od i).pidRaw) = pyRandint 1 150 ((od i).pidRaw) - 1 + 1
    omega
  · intro hc
    simp only [mkPurchaseOrder]
    rw [if_pos hc]
  · intro hc
    simp only [mkPurchaseOrder]
    rw [if_neg hc]
    omega

/-- The purchase order generated at index 0 from the concrete streams. -/
def po0 : PurchaseOrder := mkPurchaseOrder 0 fk0 pd0 0 (pod0 0)

/-- Witness for C9 at a concrete stream: the first generated purchase order. -/
theorem purchase_order_delivery_dates_witness :
    po0.status = "Delivered" ∧
      po0.expected_delivery_date ≤ po0.actual_delivery_date ∧
      (∃ p ∈ genProducts fk0 pd0,
        po0.product_id = p.product_id ∧
        po0.supplier_id = p.supplier_id ∧
        po0.expected_delivery_date = po0.order_date + (p.lead_time_days : Int)) ∧
      (∃ i, i < 100 ∧ po0 = mkPurchaseOrder 0 fk0 pd0 i (pod0 i) ∧
        ((pod0 i).coin < 85/100 → po0.actual_delivery_date = po0.expected_delivery_date) ∧
        (¬ (pod0 i).coin < 85/100 →
          po0.expected_delivery_date + 1 ≤ po0.actual_delivery_date ∧
          po0.actual_delivery_date ≤ po0.expected_delivery_date + 10)) :=
  purchase_order_delivery_dates 0 fk0 pd0 pod0 po0
    (List.mem_map.2 ⟨0, List.mem_range.2 (by omega), rfl⟩)
